import Mathlib

/-!
# Verification of the APEX_SURVIVOR decision core

Shallow embedding of the pressure calculators, the SSD learning core, the
choice-distribution strategy and the two meaning-pressure aggregators of the
APEX_SURVIVOR repository, together with proofs and refutations of the
specification claims about them.

Python floats are idealised as exact rationals (`ℚ`) where the source code
only performs field operations, and as exact reals (`ℝ`) where the source
uses transcendental functions (`math.sqrt`, `math.exp`, `np.tanh`,
`np.log`).  Python `int(x)` (truncation toward zero) is modelled by
`pyIntQ` / `pyInt`.  Python integers are modelled by `ℤ`.
-/

namespace Apex

/-- Python `int(x)` on a rational: truncation toward zero. -/
def pyIntQ (x : ℚ) : ℤ := if 0 ≤ x then ⌊x⌋ else ⌈x⌉

/-- Python `int(x)` on a real: truncation toward zero. -/
noncomputable def pyInt (x : ℝ) : ℤ := if 0 ≤ x then ⌊x⌋ else ⌈x⌉

/-! ## src/pressure/hp_pressure.py -/

/-- `calculate_hp_pressure` from `src/pressure/hp_pressure.py` (lines 8-25):
`hp_ratio = hp / max_hp; crash_death_fear = (1.0 - hp_ratio) ** 2 * 2.0`. -/
def calculate_hp_pressure (hp max_hp : ℤ) : ℚ :=
  let hp_ratio : ℚ := (hp : ℚ) / (max_hp : ℚ)
  (1 - hp_ratio) ^ 2 * 2

/-- C7: the HP-fear signal equals `(1 - hp/max_hp)^2 * 2.0` for every
`hp ∈ 1..max_hp`; it is strictly decreasing in `hp`, equals `0` at
`hp = max_hp`, and never exceeds `2.0`. -/
theorem C7_hp_fear_spec (max_hp : ℤ) (hmax : 0 < max_hp) :
    (∀ hp : ℤ, 1 ≤ hp → hp ≤ max_hp →
      calculate_hp_pressure hp max_hp = (1 - (hp : ℚ) / (max_hp : ℚ)) ^ 2 * 2) ∧
    (∀ hp₁ hp₂ : ℤ, 1 ≤ hp₁ → hp₁ < hp₂ → hp₂ ≤ max_hp →
      calculate_hp_pressure hp₂ max_hp < calculate_hp_pressure hp₁ max_hp) ∧
    calculate_hp_pressure max_hp max_hp = 0 ∧
    (∀ hp : ℤ, 1 ≤ hp → hp ≤ max_hp → calculate_hp_pressure hp max_hp ≤ 2) := by
  have hm : (0 : ℚ) < (max_hp : ℚ) := by exact_mod_cast hmax
  have hm' : (max_hp : ℚ) ≠ 0 := ne_of_gt hm
  refine ⟨fun hp _ _ => rfl, ?_, ?_, ?_⟩
  · intro hp₁ hp₂ h1 h12 h2m
    unfold calculate_hp_pressure
    have hc12 : (hp₁ : ℚ) < (hp₂ : ℚ) := by exact_mod_cast h12
    have hc2m : (hp₂ : ℚ) ≤ (max_hp : ℚ) := by exact_mod_cast h2m
    have hratio : (hp₁ : ℚ) / (max_hp : ℚ) < (hp₂ : ℚ) / (max_hp : ℚ) := by gcongr
    have hr2 : (hp₂ : ℚ) / (max_hp : ℚ) ≤ 1 := by
      rw [div_le_one hm]; exact hc2m
    nlinarith [hratio, hr2]
  · unfold calculate_hp_pressure
    rw [div_self hm']
    ring
  · intro hp h1 hhm
    unfold calculate_hp_pressure
    have h0 : (0 : ℚ) ≤ (hp : ℚ) / (max_hp : ℚ) := by
      apply div_nonneg
      · exact_mod_cast le_trans (by norm_num) h1
      · exact le_of_lt hm
    have h1' : (hp : ℚ) / (max_hp : ℚ) ≤ 1 := by
      rw [div_le_one hm]; exact_mod_cast hhm
    have hle : (1 - (hp : ℚ) / (max_hp : ℚ)) ^ 2 ≤ 1 := by
      apply pow_le_one₀ <;> linarith
    nlinarith

/-- Witness for C7 at `max_hp = 5`. -/
theorem C7_hp_fear_spec_witness :
    calculate_hp_pressure 5 5 = 0 ∧ calculate_hp_pressure 3 5 < calculate_hp_pressure 2 5 :=
  ⟨(C7_hp_fear_spec 5 (by norm_num)).2.2.1,
   (C7_hp_fear_spec 5 (by norm_num)).2.1 2 3 (by norm_num) (by norm_num) (by norm_num)⟩

/-! ## src/pressure/elimination_pressure.py -/

/-- Environment types appearing in `_get_env_bonus_multiplier`; `unknown`
stands for any string not in the table. -/
inductive EnvType
  | safe | normal | mild | moderate | volatile | deadly | unknown
deriving DecidableEq

/-- `_get_env_bonus_multiplier` from `src/pressure/elimination_pressure.py`
(lines 119-129): table lookup with default `1.0`. -/
def envBonusMultiplier : EnvType → ℚ
  | .safe => 0.75
  | .normal => 0.90
  | .mild => 1.10
  | .moderate => 1.30
  | .volatile => 1.20
  | .deadly => 1.8
  | .unknown => 1

/-- `environments.get(future_set, 'normal')`: association-list lookup with
default `normal`. -/
def envLookup (environments : List (ℤ × EnvType)) (s : ℤ) : EnvType :=
  (environments.lookup s).getD EnvType.normal

/-- Python `range(current_set + 1, total_sets + 1)`. -/
def futureSets (current_set total_sets : ℤ) : List ℤ :=
  (List.range (total_sets - current_set).toNat).map (fun i => current_set + 1 + (i : ℤ))

/-- Average future environment-bonus multiplier (elimination variant,
`src/pressure/elimination_pressure.py` lines 52-64). -/
def elimAvgMultiplier (current_set total_sets : ℤ) (environments : List (ℤ × EnvType))
    (env_enabled : Bool) : ℚ :=
  if env_enabled = true ∧ environments ≠ [] then
    let ms := (futureSets current_set total_sets).map
      (fun s => envBonusMultiplier (envLookup environments s))
    if ms ≠ [] then ms.sum / (ms.length : ℚ) else 1
  else 1

/-- `avg_max_per_set` (`src/pressure/elimination_pressure.py` lines 67-70). -/
def elimAvgMaxPerSet (max_points_per_round total_rounds base_max_set_bonus : ℤ)
    (avg_multiplier : ℚ) : ℤ :=
  max_points_per_round * total_rounds + pyIntQ ((base_max_set_bonus : ℚ) * avg_multiplier)

/-- `margin_to_elimination` (`src/pressure/elimination_pressure.py` lines 73-82). -/
def elimMarginToElimination (overall_gap current_set total_sets max_points_per_round
    total_rounds remaining_rounds_this_set base_max_set_bonus : ℤ)
    (env_bonus_multiplier : ℚ) (environments : List (ℤ × EnvType))
    (env_enabled : Bool) : ℤ :=
  let remaining_sets := total_sets - current_set
  let avg_multiplier := elimAvgMultiplier current_set total_sets environments env_enabled
  let avg_max_per_set :=
    elimAvgMaxPerSet max_points_per_round total_rounds base_max_set_bonus avg_multiplier
  let max_possible_gain_in_set := max_points_per_round * remaining_rounds_this_set
  let max_set_bonus := pyIntQ ((base_max_set_bonus : ℚ) * env_bonus_multiplier)
  let max_possible_gain_overall :=
    avg_max_per_set * remaining_sets + max_possible_gain_in_set + max_set_bonus
  max_possible_gain_overall - overall_gap

/-- The threshold banding of the margin
(`src/pressure/elimination_pressure.py` lines 85-109). -/
def eliminationBand (avg_max_per_set margin : ℤ) : ℚ :=
  if margin ≤ 0 then 5
  else if (margin : ℚ) < (avg_max_per_set : ℚ) * 0.3 then 3
  else if (margin : ℚ) < (avg_max_per_set : ℚ) * 0.7 then 2
  else if (margin : ℚ) < (avg_max_per_set : ℚ) * 1.2 then 1
  else 0

/-- `calculate_elimination_line_pressure` from
`src/pressure/elimination_pressure.py` (lines 10-116). -/
def calculate_elimination_line_pressure (overall_rank overall_gap current_set total_sets
    max_points_per_round total_rounds remaining_rounds_this_set base_max_set_bonus : ℤ)
    (env_bonus_multiplier : ℚ) (environments : List (ℤ × EnvType))
    (env_enabled : Bool) : ℚ :=
  if total_sets ≤ 1 ∨ overall_rank ≤ 1 ∨ overall_gap ≤ 0 then 0
  else
    eliminationBand
      (elimAvgMaxPerSet max_points_per_round total_rounds base_max_set_bonus
        (elimAvgMultiplier current_set total_sets environments env_enabled))
      (elimMarginToElimination overall_gap current_set total_sets
        max_points_per_round total_rounds remaining_rounds_this_set base_max_set_bonus
        env_bonus_multiplier environments env_enabled)

/-- C8: the elimination-line pressure only takes values in
`{5, 3, 2, 1, 0}`; under the entry guards (`total_sets > 1`,
`overall_rank > 1`, `overall_gap > 0`) it equals `5` exactly when
`margin_to_elimination ≤ 0`; and the margin banding is non-increasing in
the margin for all other parameters fixed. -/
theorem C8_elimination_line_pressure (overall_rank overall_gap current_set total_sets
    max_points_per_round total_rounds remaining_rounds_this_set base_max_set_bonus : ℤ)
    (env_bonus_multiplier : ℚ) (environments : List (ℤ × EnvType)) (env_enabled : Bool) :
    (calculate_elimination_line_pressure overall_rank overall_gap current_set total_sets
        max_points_per_round total_rounds remaining_rounds_this_set base_max_set_bonus
        env_bonus_multiplier environments env_enabled ∈ ({5, 3, 2, 1, 0} : Set ℚ)) ∧
    (1 < total_sets → 1 < overall_rank → 0 < overall_gap →
      (calculate_elimination_line_pressure overall_rank overall_gap current_set total_sets
          max_points_per_round total_rounds remaining_rounds_this_set base_max_set_bonus
          env_bonus_multiplier environments env_enabled = 5 ↔
        elimMarginToElimination overall_gap current_set total_sets max_points_per_round
          total_rounds remaining_rounds_this_set base_max_set_bonus
          env_bonus_multiplier environments env_enabled ≤ 0)) ∧
    (∀ avg m₁ m₂ : ℤ, m₁ ≤ m₂ → eliminationBand avg m₂ ≤ eliminationBand avg m₁) := by
  refine ⟨?_, ?_, ?_⟩
  · unfold calculate_elimination_line_pressure eliminationBand
    split_ifs <;> simp
  · intro hs hr hg
    have hguard : ¬(total_sets ≤ 1 ∨ overall_rank ≤ 1 ∨ overall_gap ≤ 0) := by
      push_neg; exact ⟨hs, hr, hg⟩
    unfold calculate_elimination_line_pressure
    rw [if_neg hguard]
    unfold eliminationBand
    constructor
    · intro h5
      by_contra hpos
      push_neg at hpos
      rw [if_neg (by omega)] at h5
      split_ifs at h5 <;> norm_num at h5
    · intro hm
      rw [if_pos hm]
  · intro avg m₁ m₂ h
    have hc : (m₁ : ℚ) ≤ (m₂ : ℚ) := by exact_mod_cast h
    unfold eliminationBand
    split_ifs <;> first | (norm_num; done) | omega | linarith [hc]

/-- Witness for C8, instantiating the guards and the monotonicity at
concrete inputs. -/
theorem C8_elimination_line_pressure_witness :
    (calculate_elimination_line_pressure 2 1000 2 2 10 5 1 30 1 [] false = 5 ↔
      elimMarginToElimination 1000 2 2 10 5 1 30 1 [] false ≤ 0) ∧
    eliminationBand 80 30 ≤ eliminationBand 80 10 :=
  ⟨(C8_elimination_line_pressure 2 1000 2 2 10 5 1 30 1 [] false).2.1
      (by norm_num) (by norm_num) (by norm_num),
   (C8_elimination_line_pressure 2 1000 2 2 10 5 1 30 1 [] false).2.2
      80 10 30 (by norm_num)⟩

/-! ## src/ssd/state.py and src/ssd/core.py

The strategy dictionary is the one `ChickenPlayer.__init__` instantiates
(`src/core/player.py` lines 34-38): the three classes low/medium/high risk. -/

/-- Strategy classes (keys of the `strategies` dict in `ChickenPlayer`). -/
inductive StrategyClass
  | low_risk | medium_risk | high_risk
deriving DecidableEq

/-- Constructor parameters of `SSDCore` (`src/ssd/core.py` lines 27-79). -/
structure SSDConfig where
  kappa_init : ℝ
  kappa_min : ℝ
  T_base : ℝ
  T_min : ℝ
  T_max : ℝ
  eta : ℝ
  rho : ℝ
  lambda_forget : ℝ
  lambda_forget_other : ℝ
  alpha : ℝ
  beta_E : ℝ
  c1 : ℝ
  c2 : ℝ
  jump_threshold : ℝ
  jump_base_rate : ℝ
  jump_gamma : ℝ

/-- `SSDState` (`src/ssd/state.py` lines 13-25). `expected_reward` is never
read by the code under verification and is omitted. -/
structure SSDState where
  kappa : StrategyClass → ℝ
  E : ℝ
  T : ℝ
  last_strategy : Option StrategyClass
  jump_count : ℤ

/-- The `learning_modifiers` dict read via `.get(_, 1.0)`
(`src/ssd/core.py` lines 174, 194, 216, 229). -/
structure LearningModifiers where
  learning_speed : ℝ := 1
  pressure_sensitivity : ℝ := 1
  temperature_sensitivity : ℝ := 1
  jump_threshold_modifier : ℝ := 1

/-- `SSDCore.initialize_state` (`src/ssd/core.py` lines 81-87). -/
def SSDCore_initialize_state (cfg : SSDConfig) : SSDState :=
  { kappa := fun _ => cfg.kappa_init, E := 0, T := cfg.T_base,
    last_strategy := none, jump_count := 0 }

/-- `SSDState.reset_temperature` (`src/ssd/state.py` lines 27-29):
hard-codes `T = 0.8`, independent of any configured bounds. -/
noncomputable def SSDState_reset_temperature (s : SSDState) : SSDState :=
  { s with T := 0.8 }

/-- Sum of the inertia values (`kappa_values.sum()` over the three classes). -/
def kappaSum (k : StrategyClass → ℝ) : ℝ :=
  k .low_risk + k .medium_risk + k .high_risk

/-- `np.mean` of the inertia values (`src/ssd/core.py` line 232). -/
noncomputable def kappaMean (k : StrategyClass → ℝ) : ℝ := kappaSum k / 3

/-- One summand of the Shannon entropy with the `1e-10` guard
(`src/ssd/core.py` line 214). -/
noncomputable def plogp (p : ℝ) : ℝ := p * Real.log (p + 1e-10)

/-- `SSDCore._update_temperature` (`src/ssd/core.py` lines 209-224),
returning the new temperature. -/
noncomputable def SSDCore_update_temperature (cfg : SSDConfig)
    (kappa : StrategyClass → ℝ) (E : ℝ) (m : LearningModifiers) : ℝ :=
  let s := kappaSum kappa
  let entropy := -(plogp (kappa .low_risk / s) + plogp (kappa .medium_risk / s) +
    plogp (kappa .high_risk / s))
  let c1 := cfg.c1 * m.temperature_sensitivity
  let max_entropy := Real.log 3
  let normalized_entropy := if 0 < max_entropy then entropy / max_entropy else 0
  max cfg.T_min (min cfg.T_max (cfg.T_base + c1 * E + cfg.c2 * (1 - normalized_entropy)))

/-- Dynamic jump threshold `Θ` (`src/ssd/core.py` lines 231-234). -/
noncomputable def jumpTheta (cfg : SSDConfig) (kappa : StrategyClass → ℝ)
    (m : LearningModifiers) : ℝ :=
  cfg.jump_threshold * m.jump_threshold_modifier + 0.5 * kappaMean kappa

/-- Jump probability `P = 1 - exp(-h)` (`src/ssd/core.py` lines 237-244). -/
noncomputable def jumpProb (cfg : SSDConfig) (kappa : StrategyClass → ℝ) (E : ℝ)
    (m : LearningModifiers) : ℝ :=
  let h := cfg.jump_base_rate * Real.exp ((E - jumpTheta cfg kappa m) / cfg.jump_gamma) *
    Real.exp (-(kappaMean kappa) * 2)
  1 - Real.exp (-h * 1)

/-- `SSDCore.update` (`src/ssd/core.py` lines 147-207) together with the
inlined `_update_temperature` and `_check_jump`.  `rand` is the
`np.random.random()` draw of the jump check. -/
noncomputable def SSDCore_update (cfg : SSDConfig) (s : SSDState) (reward : ℝ)
    (m : LearningModifiers) (rand : ℝ) : SSDState :=
  match s.last_strategy with
  | none => s
  | some last =>
    let normalized_reward := Real.tanh (reward / 50)
    let W_align := normalized_reward - cfg.rho * normalized_reward ^ 2
    let kappa_current := s.kappa last
    let dkappa := cfg.eta * W_align * m.learning_speed -
      cfg.lambda_forget * (kappa_current - cfg.kappa_min)
    let kappa' : StrategyClass → ℝ := fun c =>
      if c = last then max cfg.kappa_min (s.kappa c + dkappa)
      else max cfg.kappa_min
        (s.kappa c - cfg.lambda_forget_other * (s.kappa c - cfg.kappa_min))
    let expected_reward := Real.tanh kappa_current
    let pressure_gap := |normalized_reward - expected_reward|
    let dE := cfg.alpha * max pressure_gap 0 * m.pressure_sensitivity - cfg.beta_E * s.E
    let E' := max 0 (s.E + dE)
    let T' := SSDCore_update_temperature cfg kappa' E' m
    if jumpTheta cfg kappa' m < E' ∧ rand < jumpProb cfg kappa' E' m then
      { kappa := kappa', E := 0, T := min cfg.T_max (T' * 1.5),
        last_strategy := s.last_strategy, jump_count := s.jump_count + 1 }
    else
      { kappa := kappa', E := E', T := T',
        last_strategy := s.last_strategy, jump_count := s.jump_count }

/-- One decide-then-update step of the tournament loop: the orchestrator
(`ChickenPlayer._choose_strategy`, `src/core/player.py` line 872) stores a
chosen class in `last_strategy` before `update_ssd` runs. -/
structure UpdateCall where
  choose : Option StrategyClass
  reward : ℝ
  modifiers : LearningModifiers
  rand : ℝ

/-- A finite sequence of choose/update steps. -/
noncomputable def runUpdates (cfg : SSDConfig) : SSDState → List UpdateCall → SSDState
  | s, [] => s
  | s, c :: rest =>
    runUpdates cfg
      (SSDCore_update cfg { s with last_strategy := c.choose } c.reward c.modifiers c.rand)
      rest

/-- After any single update, every inertia value is at least `kappa_min`
whenever it was on entry (and the touched entries are clamped
unconditionally). -/
theorem update_kappa_ge_min (cfg : SSDConfig) (s : SSDState) (reward : ℝ)
    (m : LearningModifiers) (rand : ℝ) (c : StrategyClass)
    (h : cfg.kappa_min ≤ s.kappa c) :
    cfg.kappa_min ≤ (SSDCore_update cfg s reward m rand).kappa c := by
  cases hls : s.last_strategy with
  | none => simpa [SSDCore_update, hls] using h
  | some last =>
    simp only [SSDCore_update, hls]
    split_ifs <;> simp only [] <;> split_ifs <;> exact le_max_left _ _


/-- The inertia floor is preserved by any run of choose/update steps. -/
theorem runUpdates_kappa_ge_min (cfg : SSDConfig) (calls : List UpdateCall) :
    ∀ s : SSDState, (∀ c, cfg.kappa_min ≤ s.kappa c) →
      ∀ c, cfg.kappa_min ≤ (runUpdates cfg s calls).kappa c := by
  induction calls with
  | nil => intro s hs c; simpa [runUpdates] using hs c
  | cons call rest ih =>
    intro s hs c
    simp only [runUpdates]
    exact ih _ (fun c' => update_kappa_ge_min cfg { s with last_strategy := call.choose }
      call.reward call.modifiers call.rand c' (hs c')) c

/-- C4: for every strategy class, `inertia[class] ≥ kappa_min` after any
finite sequence of `SSDCore.update` calls (with `last_strategy` set
arbitrarily between calls) starting from the initialized state, for every
reward sequence and every `learning_modifiers` value, provided the
configured initial inertia is at least the floor. -/
theorem C4_inertia_floor (cfg : SSDConfig) (hinit : cfg.kappa_min ≤ cfg.kappa_init)
    (calls : List UpdateCall) (c : StrategyClass) :
    cfg.kappa_min ≤ (runUpdates cfg (SSDCore_initialize_state cfg) calls).kappa c :=
  runUpdates_kappa_ge_min cfg calls _ (fun _ => hinit) c

/-- Witness for C4: default configuration of `SSDCore.__init__`, one update
with a huge negative reward. -/
theorem C4_inertia_floor_witness :
    let cfg : SSDConfig :=
      { kappa_init := 0.3, kappa_min := 0.1, T_base := 0.8, T_min := 0.5, T_max := 5,
        eta := 0.5, rho := 0.2, lambda_forget := 0.05, lambda_forget_other := 0.02,
        alpha := 0.3, beta_E := 0.1, c1 := 0.5, c2 := 0.3, jump_threshold := 2,
        jump_base_rate := 0.1, jump_gamma := 0.5 }
    cfg.kappa_min ≤ (runUpdates cfg (SSDCore_initialize_state cfg)
      [{ choose := some .low_risk, reward := -1000000, modifiers := {}, rand := 0.5 }]).kappa
        .low_risk :=
  C4_inertia_floor _ (by norm_num) _ _

/-- C5: after every update, `E ≥ 0`; the jump counter moves by `0` or `1`;
and whenever it moves by `1` (a jump fired), the energy is exactly `0`. -/
theorem C5_energy_jump (cfg : SSDConfig) (s : SSDState) (reward : ℝ)
    (m : LearningModifiers) (rand : ℝ) (hE : 0 ≤ s.E) :
    0 ≤ (SSDCore_update cfg s reward m rand).E ∧
    ((SSDCore_update cfg s reward m rand).jump_count = s.jump_count ∨
      (SSDCore_update cfg s reward m rand).jump_count = s.jump_count + 1) ∧
    ((SSDCore_update cfg s reward m rand).jump_count = s.jump_count + 1 →
      (SSDCore_update cfg s reward m rand).E = 0) := by
  cases hls : s.last_strategy with
  | none =>
    refine ⟨by simpa [SSDCore_update, hls] using hE, Or.inl (by simp [SSDCore_update, hls]), ?_⟩
    intro hcount
    exfalso
    simp [SSDCore_update, hls] at hcount
  | some last =>
    simp only [SSDCore_update, hls]
    split_ifs with hj
    · exact ⟨le_refl 0, Or.inr rfl, fun _ => rfl⟩
    · exact ⟨le_max_left _ _, Or.inl rfl, fun hcount =>
        absurd (show s.jump_count = s.jump_count + 1 from hcount) (by omega)⟩

/-- Witness for C5 at a concrete state with `E = 0`. -/
theorem C5_energy_jump_witness :
    let cfg : SSDConfig :=
      { kappa_init := 0.3, kappa_min := 0.1, T_base := 0.8, T_min := 0.5, T_max := 5,
        eta := 0.5, rho := 0.2, lambda_forget := 0.05, lambda_forget_other := 0.02,
        alpha := 0.3, beta_E := 0.1, c1 := 0.5, c2 := 0.3, jump_threshold := 2,
        jump_base_rate := 0.1, jump_gamma := 0.5 }
    let s : SSDState :=
      { kappa := fun _ => 0.3, E := 0, T := 0.8, last_strategy := some .high_risk,
        jump_count := 0 }
    0 ≤ (SSDCore_update cfg s 40 {} 0.5).E ∧
    ((SSDCore_update cfg s 40 {} 0.5).jump_count = s.jump_count ∨
      (SSDCore_update cfg s 40 {} 0.5).jump_count = s.jump_count + 1) ∧
    ((SSDCore_update cfg s 40 {} 0.5).jump_count = s.jump_count + 1 →
      (SSDCore_update cfg s 40 {} 0.5).E = 0) :=
  C5_energy_jump _ _ 40 {} 0.5 (by norm_num)

/-- C6 counterexample: with `T_min = 1` the per-set temperature reset leaves
the configured band, because `SSDState.reset_temperature` hard-codes
`T = 0.8` regardless of the configuration. -/
theorem C6_reset_counterexample :
    let cfg : SSDConfig :=
      { kappa_init := 0.3, kappa_min := 0.1, T_base := 2, T_min := 1, T_max := 5,
        eta := 0.5, rho := 0.2, lambda_forget := 0.05, lambda_forget_other := 0.02,
        alpha := 0.3, beta_E := 0.1, c1 := 0.5, c2 := 0.3, jump_threshold := 2,
        jump_base_rate := 0.1, jump_gamma := 0.5 }
    let s : SSDState :=
      { kappa := fun _ => 0.3, E := 0, T := 2, last_strategy := none, jump_count := 0 }
    cfg.T_min ≤ s.T ∧ s.T ≤ cfg.T_max ∧
      ¬ cfg.T_min ≤ (SSDState_reset_temperature s).T := by
  refine ⟨by norm_num, by norm_num, ?_⟩
  simp only [SSDState_reset_temperature]
  norm_num

/-- Bounds of the clamp in `_update_temperature`. -/
theorem temperature_clamp_mem (Tmin Tmax x : ℝ) (hmm : Tmin ≤ Tmax) :
    Tmin ≤ max Tmin (min Tmax x) ∧ max Tmin (min Tmax x) ≤ Tmax :=
  ⟨le_max_left _ _, max_le hmm (min_le_left _ _)⟩

/-- Bounds of the `T * 1.5` rescale applied on a jump. -/
theorem temperature_jump_mem (Tmin Tmax y : ℝ) (h0 : 0 ≤ Tmin) (hmm : Tmin ≤ Tmax)
    (hy : Tmin ≤ y) : Tmin ≤ min Tmax (y * 1.5) ∧ min Tmax (y * 1.5) ≤ Tmax :=
  ⟨le_min hmm (by nlinarith), min_le_left _ _⟩

/-- C6 amended: `T` stays within `[T_min, T_max]` across every
`SSDCore.update` call (including jump updates that scale `T` by `1.5`)
provided `0 ≤ T_min ≤ T_max` and `T` was in the band on entry; the per-set
reset however sets `T` to the constant `0.8`, not to a value tied to the
configured band. -/
theorem C6_temperature_bounds (cfg : SSDConfig) (s : SSDState) (reward : ℝ)
    (m : LearningModifiers) (rand : ℝ) (h0 : 0 ≤ cfg.T_min)
    (hmm : cfg.T_min ≤ cfg.T_max) (hl : cfg.T_min ≤ s.T) (hu : s.T ≤ cfg.T_max) :
    (cfg.T_min ≤ (SSDCore_update cfg s reward m rand).T ∧
      (SSDCore_update cfg s reward m rand).T ≤ cfg.T_max) ∧
    ∀ s' : SSDState, (SSDState_reset_temperature s').T = 0.8 := by
  refine ⟨?_, fun s' => rfl⟩
  cases hls : s.last_strategy with
  | none => exact ⟨by simpa [SSDCore_update, hls] using hl,
      by simpa [SSDCore_update, hls] using hu⟩
  | some last =>
    simp only [SSDCore_update, hls]
    split_ifs with hj
    · exact temperature_jump_mem cfg.T_min cfg.T_max _ h0 hmm (le_max_left _ _)
    · exact temperature_clamp_mem cfg.T_min cfg.T_max _ hmm

/-- Witness for C6 at a concrete in-band state. -/
theorem C6_temperature_bounds_witness :
    let cfg : SSDConfig :=
      { kappa_init := 0.3, kappa_min := 0.1, T_base := 0.8, T_min := 0.5, T_max := 5,
        eta := 0.5, rho := 0.2, lambda_forget := 0.05, lambda_forget_other := 0.02,
        alpha := 0.3, beta_E := 0.1, c1 := 0.5, c2 := 0.3, jump_threshold := 2,
        jump_base_rate := 0.1, jump_gamma := 0.5 }
    let s : SSDState :=
      { kappa := fun _ => 0.3, E := 7, T := 0.8, last_strategy := some .medium_risk,
        jump_count := 0 }
    (cfg.T_min ≤ (SSDCore_update cfg s (-100) {} 0).T ∧
      (SSDCore_update cfg s (-100) {} 0).T ≤ cfg.T_max) ∧
    ∀ s' : SSDState, (SSDState_reset_temperature s').T = 0.8 :=
  C6_temperature_bounds _ _ (-100) {} 0 (by norm_num) (by norm_num) (by norm_num)
    (by norm_num)

/-- C9: calling `SSDCore.update` with `last_strategy = None` is a no-op:
the whole state is returned unchanged, for every reward and every
`learning_modifiers` value. -/
theorem C9_update_none_noop (cfg : SSDConfig) (s : SSDState) (reward : ℝ)
    (m : LearningModifiers) (rand : ℝ) (h : s.last_strategy = none) :
    SSDCore_update cfg s reward m rand = s := by
  simp [SSDCore_update, h]

/-- Witness for C9 at a concrete state. -/
theorem C9_update_none_noop_witness :
    let cfg : SSDConfig :=
      { kappa_init := 0.3, kappa_min := 0.1, T_base := 0.8, T_min := 0.5, T_max := 5,
        eta := 0.5, rho := 0.2, lambda_forget := 0.05, lambda_forget_other := 0.02,
        alpha := 0.3, beta_E := 0.1, c1 := 0.5, c2 := 0.3, jump_threshold := 2,
        jump_base_rate := 0.1, jump_gamma := 0.5 }
    let s : SSDState :=
      { kappa := fun _ => 0.3, E := 0, T := 0.8, last_strategy := none, jump_count := 0 }
    SSDCore_update cfg s (-12345) {} 0.5 = s :=
  C9_update_none_noop _ _ (-12345) {} 0.5 rfl

/-! ## src/strategy/ssd_strategy.py

The 10-entry `choice_scores` list is modelled as a function `Fin 10 → ℝ`
(index `i` holds the score of action `i+1`); the returned probability list
is a `List ℝ`. -/

/-- `personality_weights` as read by `_apply_personality_weights`. -/
structure PersonalityWeights where
  low_risk : ℝ
  medium_risk : ℝ
  high_risk : ℝ

/-- The fields of `SSDStrategy` consulted by
`_calculate_choice_probabilities` (`src/strategy/ssd_strategy.py`
lines 15-24), plus `config['game_rules']['max_hp']`. -/
structure SSDStrategyState where
  nash_equilibrium_enabled : Bool
  band_aware : Bool
  safe_set : List ℤ
  push_set : List ℤ
  personality_weights : PersonalityWeights
  max_hp : ℤ

/-- `_apply_band_strategy` (`src/strategy/ssd_strategy.py` lines 97-123). -/
noncomputable def apply_band_strategy (st : SSDStrategyState) (scores : Fin 10 → ℝ) (p : ℝ) :
    Fin 10 → ℝ :=
  if st.band_aware = false then scores
  else if 5 < p then fun i =>
    if ((i : ℤ) + 1) ∈ st.push_set then scores i * 1.8
    else if ((i : ℤ) + 1) ∈ st.safe_set then scores i * 0.8
    else scores i
  else if p < 1.5 then fun i =>
    if ((i : ℤ) + 1) ∈ st.safe_set then scores i * 1.6
    else if ((i : ℤ) + 1) ∈ st.push_set then scores i * 0.8
    else scores i
  else fun i =>
    if ((i : ℤ) + 1) ∈ st.safe_set ∨ ((i : ℤ) + 1) ∈ st.push_set then scores i * 1.3
    else scores i

/-- One `choice_scores[choice - 1] += 0.5` step of `_apply_history_learning`
for a successful past choice (choices produced by the game lie in 1..10). -/
noncomputable def bumpChoice (c : ℤ) (scores : Fin 10 → ℝ) : Fin 10 → ℝ :=
  fun i => if (i : ℤ) + 1 = c then scores i + 0.5 else scores i

/-- `_apply_history_learning` (`src/strategy/ssd_strategy.py` lines
125-135): walks the paired histories most-recent-first and reinforces
successful choices. -/
noncomputable def apply_history_learning (choice_history : List ℤ) (success_history : List Bool)
    (scores : Fin 10 → ℝ) : Fin 10 → ℝ :=
  ((choice_history.reverse.zip success_history.reverse).foldl
    (fun sc cs => if cs.2 then bumpChoice cs.1 sc else sc) scores)

/-- `_apply_personality_weights` (`src/strategy/ssd_strategy.py` lines
137-148): indices 0-3 low, 4-6 medium, 7-9 high. -/
noncomputable def apply_personality_weights (w : PersonalityWeights) (scores : Fin 10 → ℝ) :
    Fin 10 → ℝ :=
  fun i =>
    if (i : ℕ) < 4 then scores i * w.low_risk
    else if (i : ℕ) < 7 then scores i * w.medium_risk
    else scores i * w.high_risk

/-- `_apply_hp_fear_adjustment` (`src/strategy/ssd_strategy.py` lines
150-197). -/
noncomputable def apply_hp_fear_adjustment (hp max_hp : ℤ) (p : ℝ)
    (scores : Fin 10 → ℝ) : Fin 10 → ℝ :=
  let hp_ratio : ℝ := (hp : ℝ) / (max_hp : ℝ)
  if hp_ratio ≤ 0.2 then
    if 5 ≤ p then fun i =>
      if (i : ℕ) = 0 then scores i * 10
      else if (i : ℕ) < 5 then scores i * 5
      else if (i : ℕ) < 8 then scores i * 2
      else scores i * 0.5
    else fun i =>
      if (i : ℕ) = 0 then scores i * 100
      else if (i : ℕ) < 3 then scores i * 3
      else if (i : ℕ) < 5 then scores i * 1.2
      else if (i : ℕ) < 7 then scores i * 0.3
      else scores i * 0.01
  else if hp_ratio ≤ 0.4 then
    fun i =>
      if (i : ℕ) < 5 then scores i * (1 + (1 - hp_ratio) * 5 * 0.8)
      else if (i : ℕ) < 7 then scores i * (1 + (1 - hp_ratio) * 5 * 0.3)
      else scores i * max 0.1 (1 - (1 - hp_ratio) * 5 * 0.5)
  else if hp_ratio ≤ 0.6 then
    fun i =>
      if (i : ℕ) < 7 then scores i * 1.5
      else if 8 ≤ (i : ℕ) then scores i * 0.7
      else scores i
  else scores

/-- The temperature-scaled softmax of `_calculate_choice_probabilities`
(`src/strategy/ssd_strategy.py` lines 90-93). -/
noncomputable def softmaxProbs (T_adjusted : ℝ) (scores : Fin 10 → ℝ) : List ℝ :=
  List.ofFn fun i =>
    Real.exp (scores i / T_adjusted) / ∑ j, Real.exp (scores j / T_adjusted)

/-- The fixed ultra-conservative distribution of the sub-threshold branch
(`src/strategy/ssd_strategy.py` lines 55-59). -/
noncomputable def ultra_safe_probs : List ℝ :=
  [0.60, 0.30, 0.08, 0.02, 0, 0, 0, 0, 0, 0]

/-- `SSDStrategy._calculate_choice_probabilities`
(`src/strategy/ssd_strategy.py` lines 47-95); `_calibrate_bands` is a
no-op in the source, and `_calculate_hp_aware_nash_strategy` (lines
204-208) returns `[0.1] * 10`. -/
noncomputable def calculate_choice_probabilities (st : SSDStrategyState)
    (choice_history : List ℤ) (success_history : List Bool) (hp : ℤ) (T : ℝ)
    (meaning_pressure : ℝ) : List ℝ :=
  if st.nash_equilibrium_enabled = true then List.replicate 10 0.1
  else if meaning_pressure < 0.1 then ultra_safe_probs
  else
    softmaxProbs (T * (1 + meaning_pressure * 0.3))
      (apply_hp_fear_adjustment hp st.max_hp meaning_pressure
        (apply_personality_weights st.personality_weights
          (apply_history_learning choice_history success_history
            (apply_band_strategy st (fun _ => 1) meaning_pressure))))

/-- The softmax always yields 10 probabilities that sum to one, each
strictly between 0 and 1. -/
theorem softmaxProbs_spec (T_adjusted : ℝ) (scores : Fin 10 → ℝ) :
    (softmaxProbs T_adjusted scores).length = 10 ∧
    (softmaxProbs T_adjusted scores).sum = 1 ∧
    ∀ x ∈ softmaxProbs T_adjusted scores, 0 < x ∧ x < 1 := by
  have hpos : ∀ i : Fin 10, 0 < Real.exp (scores i / T_adjusted) :=
    fun i => Real.exp_pos _
  have htot : 0 < ∑ j, Real.exp (scores j / T_adjusted) :=
    Finset.sum_pos (fun i _ => hpos i) ⟨0, Finset.mem_univ 0⟩
  refine ⟨by simp [softmaxProbs], ?_, ?_⟩
  · rw [softmaxProbs, List.sum_ofFn, ← Finset.sum_div]
    exact div_self (ne_of_gt htot)
  · intro x hx
    rw [softmaxProbs, List.mem_ofFn] at hx
    obtain ⟨i, hi⟩ := hx
    subst hi
    constructor
    · exact div_pos (hpos i) htot
    · rw [div_lt_one htot]
      have hj : (if i = 0 then (1 : Fin 10) else 0) ≠ i := by
        split_ifs with h <;> simp [h]
        intro hcon
        exact absurd (hcon ▸ h) (by norm_num)
      exact Finset.single_lt_sum hj (Finset.mem_univ _) (Finset.mem_univ _)
        (hpos _) (fun j _ _ => le_of_lt (hpos j))

/-- C2 counterexample: with pressure below the 0.1 threshold the produced
distribution is the fixed ultra-safe list, which contains the entry `0`,
so not every entry is strictly inside `(0, 1)`. -/
theorem C2_distribution_counterexample :
    (0 : ℝ) ∈ calculate_choice_probabilities
      { nash_equilibrium_enabled := false, band_aware := false, safe_set := [],
        push_set := [], personality_weights := ⟨1, 1, 1⟩, max_hp := 5 }
      [] [] 5 0.8 0.05 ∧
    (0 : ℝ) ∉ Set.Ioo (0 : ℝ) 1 := by
  constructor
  · unfold calculate_choice_probabilities
    rw [if_neg (by simp), if_pos (by norm_num)]
    simp [ultra_safe_probs]
  · simp [Set.mem_Ioo]

/-- C2 amended: every produced distribution has 10 entries in `[0, 1)`
summing exactly to 1; on the softmax path (Nash mode disabled, pressure at
least 0.1) every entry is moreover strictly positive. -/
theorem C2_distribution_invariants (st : SSDStrategyState) (choice_history : List ℤ)
    (success_history : List Bool) (hp : ℤ) (T meaning_pressure : ℝ) :
    (calculate_choice_probabilities st choice_history success_history hp T
        meaning_pressure).length = 10 ∧
    (calculate_choice_probabilities st choice_history success_history hp T
        meaning_pressure).sum = 1 ∧
    (∀ x ∈ calculate_choice_probabilities st choice_history success_history hp T
        meaning_pressure, 0 ≤ x ∧ x < 1) ∧
    (st.nash_equilibrium_enabled = false → 0.1 ≤ meaning_pressure →
      ∀ x ∈ calculate_choice_probabilities st choice_history success_history hp T
        meaning_pressure, 0 < x) := by
  unfold calculate_choice_probabilities
  split_ifs with h1 h2
  · refine ⟨by simp, ?_, ?_, ?_⟩
    · simp [List.sum_replicate]
      norm_num
    · intro x hx
      rw [List.eq_of_mem_replicate hx]
      norm_num
    · intro hfalse _
      rw [h1] at hfalse
      exact absurd hfalse (by simp)
  · refine ⟨by simp [ultra_safe_probs], ?_, ?_, ?_⟩
    · norm_num [ultra_safe_probs]
    · intro x hx
      simp only [ultra_safe_probs, List.mem_cons, List.not_mem_nil, or_false] at hx
      rcases hx with h | h | h | h | h | h | h | h | h | h <;> subst h <;> norm_num
    · intro _ hp'
      linarith
  · obtain ⟨hlen, hsum, hmem⟩ :=
      softmaxProbs_spec (T * (1 + meaning_pressure * 0.3))
        (apply_hp_fear_adjustment hp st.max_hp meaning_pressure
          (apply_personality_weights st.personality_weights
            (apply_history_learning choice_history success_history
              (apply_band_strategy st (fun _ => 1) meaning_pressure))))
    exact ⟨hlen, hsum, fun x hx => ⟨le_of_lt (hmem x hx).1, (hmem x hx).2⟩,
      fun _ _ x hx => (hmem x hx).1⟩

/-- Witness for C2 on the softmax path at a concrete input. -/
theorem C2_distribution_invariants_witness :
    (calculate_choice_probabilities
      { nash_equilibrium_enabled := false, band_aware := false, safe_set := [],
        push_set := [], personality_weights := ⟨1, 1, 1⟩, max_hp := 5 }
      [] [] 5 0.8 2).sum = 1 ∧
    ∀ x ∈ calculate_choice_probabilities
      { nash_equilibrium_enabled := false, band_aware := false, safe_set := [],
        push_set := [], personality_weights := ⟨1, 1, 1⟩, max_hp := 5 }
      [] [] 5 0.8 2, 0 < x :=
  ⟨(C2_distribution_invariants _ [] [] 5 0.8 2).2.1,
   (C2_distribution_invariants _ [] [] 5 0.8 2).2.2.2 rfl (by norm_num)⟩

/-- C3 counterexample: with `nash_equilibrium_enabled` the method
short-circuits to `[0.1] * 10` before the pressure test, so pressure below
0.1 does not yield the fixed ultra-conservative distribution. -/
theorem C3_nash_counterexample :
    calculate_choice_probabilities
      { nash_equilibrium_enabled := true, band_aware := false, safe_set := [],
        push_set := [], personality_weights := ⟨1, 1, 1⟩, max_hp := 5 }
      [] [] 5 0.8 0.05 ≠
    [0.60, 0.30, 0.08, 0.02, 0, 0, 0, 0, 0, 0] := by
  unfold calculate_choice_probabilities
  rw [if_pos rfl]
  norm_num [List.replicate]

/-- C3 amended: when the Nash-equilibrium mode is disabled, every input
with meaning pressure strictly below 0.1 yields exactly the fixed
distribution `[0.60, 0.30, 0.08, 0.02, 0, 0, 0, 0, 0, 0]`, regardless of
HP, history, personality weights, temperature or band-awareness. -/
theorem C3_ultra_safe_distribution (st : SSDStrategyState) (choice_history : List ℤ)
    (success_history : List Bool) (hp : ℤ) (T meaning_pressure : ℝ)
    (hnash : st.nash_equilibrium_enabled = false) (hlow : meaning_pressure < 0.1) :
    calculate_choice_probabilities st choice_history success_history hp T
      meaning_pressure = [0.60, 0.30, 0.08, 0.02, 0, 0, 0, 0, 0, 0] := by
  unfold calculate_choice_probabilities
  rw [if_neg (by simp [hnash]), if_pos hlow]
  rfl

/-- Witness for C3 at a concrete input with nonempty histories. -/
theorem C3_ultra_safe_distribution_witness :
    calculate_choice_probabilities
      { nash_equilibrium_enabled := false, band_aware := true, safe_set := [1, 2, 3],
        push_set := [8, 9, 10], personality_weights := ⟨2, 1, 3⟩, max_hp := 5 }
      [3, 7] [true, false] 1 4 0.05 = [0.60, 0.30, 0.08, 0.02, 0, 0, 0, 0, 0, 0] :=
  C3_ultra_safe_distribution _ [3, 7] [true, false] 1 4 0.05 rfl (by norm_num)

/-! ## src/pressure/reversal_pressure.py -/

/-- `calculate_reversal_pressure` (`src/pressure/reversal_pressure.py`
lines 10-55): returns the impossibility score and the reversal-possible
flag. -/
def calculate_reversal_pressure (current_rank score_gap_from_first max_points_per_round
    remaining_rounds max_set_bonus hp : ℤ) : ℚ × Bool :=
  let risk_bonus_multiplier : ℚ := if hp = 1 then 1.3 else 1
  let max_possible_gain_in_set : ℤ :=
    pyIntQ (((max_points_per_round * remaining_rounds : ℤ) : ℚ) * risk_bonus_multiplier)
  if 1 < current_rank ∧ 0 < score_gap_from_first then
    if max_possible_gain_in_set + max_set_bonus < score_gap_from_first then (2, false)
    else if max_possible_gain_in_set < score_gap_from_first then (1.5, true)
    else if (max_possible_gain_in_set : ℚ) * 0.5 < (score_gap_from_first : ℚ) then (1, true)
    else (0.5, true)
  else (0, true)

/-- `calculate_overall_reversal_pressure`
(`src/pressure/reversal_pressure.py` lines 58-122). -/
def calculate_overall_reversal_pressure (overall_rank overall_gap current_set total_sets
    max_points_per_round total_rounds remaining_rounds_this_set base_max_set_bonus : ℤ)
    (env_bonus_multiplier : ℚ) (environments : List (ℤ × EnvType)) (env_enabled : Bool) :
    ℚ × Bool :=
  if total_sets ≤ 1 ∨ overall_rank ≤ 1 ∨ overall_gap ≤ 0 then (0, true)
  else
    let remaining_sets := total_sets - current_set
    let future_max_set_bonus : ℤ :=
      if env_enabled = true ∧ environments ≠ [] then
        let ms := (futureSets current_set total_sets).map
          (fun s => envBonusMultiplier (envLookup environments s))
        let avg := if ms ≠ [] then ms.sum / (ms.length : ℚ) else 1
        pyIntQ ((base_max_set_bonus : ℚ) * avg)
      else base_max_set_bonus
    let max_per_set := max_points_per_round * total_rounds + future_max_set_bonus
    let max_possible_gain_overall := max_per_set * remaining_sets +
      max_points_per_round * remaining_rounds_this_set +
      pyIntQ ((base_max_set_bonus : ℚ) * env_bonus_multiplier)
    if max_possible_gain_overall < overall_gap then (2, false)
    else if (max_possible_gain_overall : ℚ) * 0.8 < (overall_gap : ℚ) then (1.5, true)
    else if (max_possible_gain_overall : ℚ) * 0.5 < (overall_gap : ℚ) then (1, true)
    else (0.5, true)

/-! ## src/pressure/multi_conflict_pressure.py -/

/-- `calculate_multi_conflict_pressure`
(`src/pressure/multi_conflict_pressure.py` lines 11-129).  The Python
`(total_score / 100.0) ** 0.5` (only evaluated for positive scores) is
`Real.sqrt`. -/
noncomputable def calculate_multi_conflict_pressure (hp max_hp current_rank
    score_gap_from_first alive_count total_score : ℤ)
    (reversal_impossibility : ℚ) : ℝ :=
  let hp_ratio : ℚ := (hp : ℚ) / (max_hp : ℚ)
  let is_winning := current_rank ≤ 2
  let is_losing := 5 ≤ current_rank
  let large_gap := 1 < alive_count ∧ 20 < score_gap_from_first
  let very_large_gap := 1 < alive_count ∧ 50 < score_gap_from_first
  let crash_death_fear : ℚ := (1 - hp_ratio) ^ 2 * 2
  let defeat_death_fear : ℚ :=
    if is_losing ∨ large_gap then
      (if very_large_gap then 2 else 1.2) + reversal_impossibility
    else if is_winning ∧ ¬large_gap then 0.3
    else 0.8
  let money_attachment : ℝ :=
    if 0 < total_score then Real.sqrt ((total_score : ℝ) / 100) * 1 else 0
  let total_death_pressure : ℝ :=
    if is_winning ∧ ¬large_gap then
      ((crash_death_fear : ℝ) * 1.5 + (defeat_death_fear : ℝ) * 0.2 +
        money_attachment * 0.3) * 0.7
    else if is_losing ∨ very_large_gap then
      ((crash_death_fear : ℝ) * 0.4 + (defeat_death_fear : ℝ) * 1.5 +
        money_attachment * 0.15) * 1.1
    else if large_gap ∧ ¬is_losing then
      ((crash_death_fear : ℝ) * 0.8 + (defeat_death_fear : ℝ) * 1.8 +
        money_attachment * 0.4) * 1.2
    else (crash_death_fear : ℝ) * 1 + (defeat_death_fear : ℝ) * 1 + money_attachment * 0.3
  let with_endgame : ℝ :=
    if alive_count ≤ 3 then
      let base_endgame_multiplier : ℚ := ((4 - alive_count : ℤ) : ℚ) * 0.3
      if is_winning ∧ (0.4 : ℚ) < hp_ratio then
        total_death_pressure * 0.9 + (base_endgame_multiplier : ℝ) * 1.2
      else if is_losing ∨ hp_ratio ≤ 0.4 then
        total_death_pressure * 1.15 + (base_endgame_multiplier : ℝ) * 2
      else total_death_pressure + (base_endgame_multiplier : ℝ) * 2.5
    else total_death_pressure
  if total_score < 0 then with_endgame + ((|total_score| : ℤ) : ℝ) / 50 * 2 else with_endgame

/-! ## src/pressure/meaning_pressure.py -/

/-- The configuration values consumed by the two meaning-pressure
aggregators: `ssd_theory.meaning_pressure` weights,
`game_rules.success_bonuses.get(10, 20)`, `tournament.set_rank_bonus`,
`tournament.environment_shifts`, `game_rules.max_hp`,
`game_rules.crash_hp_loss` and `tournament.final_round`. -/
structure GameConfig where
  base_weight : ℝ
  round_progression_weight : ℝ
  score_gap_weight : ℝ
  success_bonus_10 : ℤ
  set_rank_bonus : List (ℤ × ℤ)
  env_shifts_enabled : Bool
  environments : List (ℤ × EnvType)
  max_hp : ℤ
  crash_hp_loss : ℤ
  finality_weight : ℝ
  desperation_bonus : ℝ

/-- `set_rank_bonus.get(r, d)`. -/
def rankBonusGet (cfg : GameConfig) (r d : ℤ) : ℤ := (cfg.set_rank_bonus.lookup r).getD d

/-- `MeaningPressureCalculator.calculate`
(`src/pressure/meaning_pressure.py` lines 23-172), pressure component of
the returned dict. -/
noncomputable def MeaningPressureCalculator_calculate (cfg : GameConfig)
    (round_num total_rounds : ℤ) (is_final_round : Bool) (hp total_score : ℤ)
    (current_rank score_gap_from_first remaining_rounds
      current_set total_sets overall_rank overall_gap alive_count : ℤ)
    (env_bonus_multiplier : ℚ) : ℝ :=
  let max_points_per_round := cfg.success_bonus_10
  let base_max_set_bonus := rankBonusGet cfg 1 30
  let max_set_bonus := pyIntQ ((base_max_set_bonus : ℚ) * env_bonus_multiplier)
  let set_rev := calculate_reversal_pressure current_rank score_gap_from_first
    max_points_per_round remaining_rounds max_set_bonus hp
  let overall_rev := calculate_overall_reversal_pressure overall_rank overall_gap
    current_set total_sets max_points_per_round total_rounds remaining_rounds
    base_max_set_bonus env_bonus_multiplier cfg.environments cfg.env_shifts_enabled
  let reversal_impossibility : ℚ :=
    if 1 < total_sets ∧ overall_rank ≤ 2 then set_rev.1 * 0.5
    else max set_rev.1 overall_rev.1
  let elimination_pressure := calculate_elimination_line_pressure overall_rank overall_gap
    current_set total_sets max_points_per_round total_rounds remaining_rounds
    base_max_set_bonus env_bonus_multiplier cfg.environments cfg.env_shifts_enabled
  let multi := calculate_multi_conflict_pressure hp cfg.max_hp current_rank
    score_gap_from_first alive_count total_score reversal_impossibility
  let p1 : ℝ := cfg.base_weight +
    cfg.round_progression_weight * ((round_num : ℝ) / (total_rounds : ℝ)) +
    (elimination_pressure : ℝ) + multi +
    (if 1 < current_rank then
      cfg.score_gap_weight * ((current_rank : ℝ) - 1) * 0.5 +
        min (((|score_gap_from_first| : ℤ) : ℝ) / 20) 5
     else 0)
  if is_final_round = true then
    if current_set = total_sets then
      if current_rank = 1 then p1 * 0.7
      else if current_rank ≤ 3 then p1 * cfg.finality_weight
      else p1 * cfg.desperation_bonus
    else p1 * cfg.finality_weight
  else p1

/-! ## src/core/player.py — ChickenPlayer._calculate_meaning_pressure -/

/-- The environment table inlined in the player's elimination-line block
(`src/core/player.py` lines 240-249): only `deadly`, `moderate` and `mild`
are mapped; everything else (including `safe`, `normal`, `volatile`)
falls through to `1.0`. -/
def playerElimEnvMult : EnvType → ℚ
  | .deadly => 1.8
  | .moderate => 1.3
  | .mild => 1.1
  | _ => 1

/-- The set-reversal feasibility block inlined in the player
(`src/core/player.py` lines 145-154), taking the precomputed
`max_possible_gain_in_set` and `max_set_bonus`. -/
def playerSetReversalImpossibility (current_rank score_gap_from_first
    max_possible_gain_in_set max_set_bonus : ℤ) : ℚ :=
  if 1 < current_rank ∧ 0 < score_gap_from_first then
    if max_possible_gain_in_set + max_set_bonus < score_gap_from_first then 2
    else if max_possible_gain_in_set < score_gap_from_first then 1.5
    else if (max_possible_gain_in_set : ℚ) * 0.5 < (score_gap_from_first : ℚ) then 1
    else 0.5
  else 0

/-- The overall-reversal feasibility block inlined in the player
(`src/core/player.py` lines 157-208). -/
def playerOverallReversalImpossibility (cfg : GameConfig)
    (overall_rank overall_gap current_set total_sets max_points_per_round total_rounds
      base_max_set_bonus max_possible_gain_in_set max_set_bonus : ℤ) : ℚ :=
  if 1 < total_sets ∧ 1 < overall_rank ∧ 0 < overall_gap then
    let remaining_sets := total_sets - current_set
    let future_max_set_bonus : ℤ :=
      if cfg.env_shifts_enabled = true then
        let ms := (futureSets current_set total_sets).map
          (fun s => envBonusMultiplier (envLookup cfg.environments s))
        let avg := if ms ≠ [] then ms.sum / (ms.length : ℚ) else 1
        pyIntQ ((base_max_set_bonus : ℚ) * avg)
      else base_max_set_bonus
    let max_per_set := max_points_per_round * total_rounds + future_max_set_bonus
    let max_possible_gain_overall := max_per_set * remaining_sets +
      max_possible_gain_in_set + max_set_bonus
    if max_possible_gain_overall < overall_gap then 2
    else if (max_possible_gain_overall : ℚ) * 0.8 < (overall_gap : ℚ) then 1.5
    else if (max_possible_gain_overall : ℚ) * 0.5 < (overall_gap : ℚ) then 1
    else 0.5
  else 0

/-- The elimination-line block inlined in the player
(`src/core/player.py` lines 228-285); note its environment table is
`playerElimEnvMult`, not the one of the standalone module. -/
def playerEliminationLinePressure (cfg : GameConfig)
    (overall_rank overall_gap current_set total_sets max_points_per_round total_rounds
      base_max_set_bonus max_possible_gain_in_set max_set_bonus : ℤ) : ℚ :=
  if 1 < total_sets ∧ 1 < overall_rank ∧ 0 < overall_gap then
    let remaining_sets := total_sets - current_set
    let avg_multiplier : ℚ :=
      if cfg.env_shifts_enabled = true then
        let ms := (futureSets current_set total_sets).map
          (fun s => playerElimEnvMult (envLookup cfg.environments s))
        if ms ≠ [] then ms.sum / (ms.length : ℚ) else 1
      else 1
    let avg_max_per_set := max_points_per_round * total_rounds +
      pyIntQ ((base_max_set_bonus : ℚ) * avg_multiplier)
    let max_possible_gain_overall := avg_max_per_set * remaining_sets +
      max_possible_gain_in_set + max_set_bonus
    let margin := max_possible_gain_overall - overall_gap
    if margin ≤ 0 then 5
    else if (margin : ℚ) < (avg_max_per_set : ℚ) * 0.3 then 3
    else if (margin : ℚ) < (avg_max_per_set : ℚ) * 0.7 then 2
    else if (margin : ℚ) < (avg_max_per_set : ℚ) * 1.2 then 1
    else 0
  else 0

/-- The multi-conflict block inlined in the player
(`src/core/player.py` lines 295-379): crash fear, defeat fear, money
attachment and the four weighting regimes, before the endgame and debt
adjustments (which the player applies to the whole pressure). -/
noncomputable def playerTotalDeathPressure (cfg : GameConfig)
    (current_rank score_gap_from_first alive_count hp total_score : ℤ)
    (reversal_impossibility : ℚ) : ℝ :=
  let hp_ratio : ℚ := (hp : ℚ) / (cfg.max_hp : ℚ)
  let is_winning := current_rank ≤ 2
  let is_losing := 5 ≤ current_rank
  let large_gap := 1 < alive_count ∧ 20 < score_gap_from_first
  let very_large_gap := 1 < alive_count ∧ 50 < score_gap_from_first
  let crash_death_fear : ℚ := (1 - hp_ratio) ^ 2 * 2
  let defeat_death_fear : ℚ :=
    if is_losing ∨ large_gap then
      (if very_large_gap then 2 else 1.2) + reversal_impossibility
    else if is_winning ∧ ¬large_gap then 0.3
    else 0.8
  let money_attachment : ℝ :=
    if 0 < total_score then Real.sqrt ((total_score : ℝ) / 100) * 1 else 0
  if is_winning ∧ ¬large_gap then
    ((crash_death_fear : ℝ) * 1.5 + (defeat_death_fear : ℝ) * 0.2 +
      money_attachment * 0.3) * 0.7
  else if is_losing ∨ very_large_gap then
    ((crash_death_fear : ℝ) * 0.4 + (defeat_death_fear : ℝ) * 1.5 +
      money_attachment * 0.15) * 1.1
  else if large_gap ∧ ¬is_losing then
    ((crash_death_fear : ℝ) * 0.8 + (defeat_death_fear : ℝ) * 1.8 +
      money_attachment * 0.4) * 1.2
  else (crash_death_fear : ℝ) * 1 + (defeat_death_fear : ℝ) * 1 + money_attachment * 0.3

/-- Everything `ChickenPlayer._calculate_meaning_pressure` computes before
the `if is_final_round` block (`src/core/player.py` lines 117-436). -/
noncomputable def playerPreFinalPressure (cfg : GameConfig)
    (round_num total_rounds : ℤ)
    (current_rank score_gap_from_first alive_count remaining_rounds
      current_set total_sets overall_rank overall_gap : ℤ)
    (env_bonus_multiplier : ℚ) (hp total_score : ℤ) : ℝ :=
  let max_points_per_round := cfg.success_bonus_10
  let base_max_set_bonus := rankBonusGet cfg 1 30
  let max_set_bonus := pyIntQ ((base_max_set_bonus : ℚ) * env_bonus_multiplier)
  let max_possible_gain_in_set : ℤ :=
    pyIntQ (((max_points_per_round * remaining_rounds : ℤ) : ℚ) *
      (if hp = 1 then 1.3 else 1))
  let set_reversal_impossibility := playerSetReversalImpossibility current_rank
    score_gap_from_first max_possible_gain_in_set max_set_bonus
  let overall_reversal_impossibility := playerOverallReversalImpossibility cfg
    overall_rank overall_gap current_set total_sets max_points_per_round total_rounds
    base_max_set_bonus max_possible_gain_in_set max_set_bonus
  -- worse-of combination, tempered for overall top-2 (lines 212-217)
  let reversal_impossibility : ℚ :=
    if 1 < total_sets ∧ overall_rank ≤ 2 then set_reversal_impossibility * 0.5
    else max set_reversal_impossibility overall_reversal_impossibility
  let elimination_line_pressure := playerEliminationLinePressure cfg
    overall_rank overall_gap current_set total_sets max_points_per_round total_rounds
    base_max_set_bonus max_possible_gain_in_set max_set_bonus
  let total_death_pressure := playerTotalDeathPressure cfg current_rank
    score_gap_from_first alive_count hp total_score reversal_impossibility
  let p0 : ℝ := cfg.base_weight +
    cfg.round_progression_weight * ((round_num : ℝ) / (total_rounds : ℝ)) +
    total_death_pressure
  -- endgame amplification scales the whole pressure (lines 384-410)
  let hp_ratio : ℚ := (hp : ℚ) / (cfg.max_hp : ℚ)
  let is_winning := current_rank ≤ 2
  let is_losing := 5 ≤ current_rank
  let p1 : ℝ :=
    if alive_count ≤ 3 then
      let base_endgame_multiplier : ℚ := ((4 - alive_count : ℤ) : ℚ) * 0.3
      if is_winning ∧ (0.4 : ℚ) < hp_ratio then
        p0 * 0.9 + (base_endgame_multiplier : ℝ) * 1.2
      else if is_losing ∨ hp_ratio ≤ 0.4 then
        p0 * 1.15 + (base_endgame_multiplier : ℝ) * 2
      else p0 + (base_endgame_multiplier : ℝ) * 2.5
    else p0
  -- debt despair (lines 414-418)
  let p2 : ℝ := if total_score < 0 then p1 + ((|total_score| : ℤ) : ℝ) / 50 * 2 else p1
  -- elimination-line pressure added (line 424)
  let p3 : ℝ := p2 + (elimination_line_pressure : ℝ)
  -- rank and gap pressure (lines 428-436)
  if 1 < current_rank then
    p3 + (cfg.score_gap_weight * ((current_rank : ℝ) - 1) * 0.5 +
      min (((|score_gap_from_first| : ℤ) : ℝ) / 20) 5)
  else p3

/-- `max_possible_gain` of the final-set final-round analysis: best round
score (`10 * env_bonus_multiplier`) plus best set bonus
(`src/core/player.py` lines 479-482 and 578-581). -/
def finalBestGain (cfg : GameConfig) (env_bonus_multiplier : ℚ) : ℚ :=
  10 * env_bonus_multiplier +
    (pyIntQ ((rankBonusGet cfg 1 0 : ℚ) * env_bonus_multiplier) : ℚ)

/-- `safe_hp_threshold` of the HP-buffer check
(`src/core/player.py` lines 590-600). -/
def safeHpThreshold (cfg : GameConfig)
    (round_num total_rounds current_set total_sets : ℤ) : ℤ :=
  (total_rounds - round_num + 1 + (total_sets - current_set) * total_rounds) *
    cfg.crash_hp_loss + 1

/-- The `if is_final_round` block of
`ChickenPlayer._calculate_meaning_pressure`
(`src/core/player.py` lines 438-638), applied to the pre-final pressure. -/
noncomputable def playerFinalAdjust (cfg : GameConfig)
    (round_num total_rounds : ℤ) (is_final_round : Bool)
    (current_rank score_gap_from_first current_set total_sets overall_gap : ℤ)
    (env_bonus_multiplier : ℚ) (hp total_score : ℤ) (pressure : ℝ) : ℝ :=
  if is_final_round = true then
    if current_set = total_sets then
      if 0 < overall_gap then
        let points_needed_for_overall_win := overall_gap + 1
        let max_possible_gain : ℚ := finalBestGain cfg env_bonus_multiplier
        let predicted_total_if_safe : ℤ := total_score +
          pyIntQ ((rankBonusGet cfg current_rank 0 : ℚ) * env_bonus_multiplier)
        let estimated_max_first_score : ℚ :=
          ((total_score + overall_gap : ℤ) : ℚ) + max_possible_gain
        if estimated_max_first_score < (predicted_total_if_safe : ℚ) then
          if current_rank = 1 then pressure * 0.02 else pressure * 0.1
        else if max_possible_gain < (points_needed_for_overall_win : ℚ) then
          if current_rank = 1 then
            if is_final_round = true then pressure * 0.01 else pressure * 0.1
          else pressure * 0.7
        else
          let current_position_bonus : ℤ :=
            pyIntQ ((rankBonusGet cfg current_rank 0 : ℚ) * env_bonus_multiplier)
          let expected_safe_gain : ℚ :=
            if current_rank = 1 then (current_position_bonus : ℚ) - 2
            else 3 * env_bonus_multiplier + (current_position_bonus : ℚ)
          if (points_needed_for_overall_win : ℚ) ≤ expected_safe_gain then
            if current_rank = 1 then pressure * 0.05 else pressure * 0.3
          else
            let p' := pressure * cfg.finality_weight
            if 1 < current_rank then
              p' + (cfg.desperation_bonus * ((current_rank : ℝ) - 1) +
                (score_gap_from_first : ℝ) / 20)
            else p'
      else
        let lead_over_second : ℤ := if overall_gap < 0 then |overall_gap| else 0
        let max_possible_gain : ℚ := finalBestGain cfg env_bonus_multiplier
        let is_guaranteed_win := max_possible_gain < (lead_over_second : ℚ)
        let has_hp_buffer :=
          safeHpThreshold cfg round_num total_rounds current_set total_sets ≤ hp
        if is_guaranteed_win ∧ has_hp_buffer then pressure * 1.5
        else if is_guaranteed_win then
          if current_rank = 1 then pressure * 0.05 else pressure * 0.3
        else
          if current_rank = 1 then pressure * 0.05 else pressure * 0.3
    else
      let p' := pressure * cfg.finality_weight
      if 1 < current_rank then
        p' + (cfg.desperation_bonus * ((current_rank : ℝ) - 1) +
          (score_gap_from_first : ℝ) / 20)
      else p'
  else pressure

/-- `ChickenPlayer._calculate_meaning_pressure`
(`src/core/player.py` lines 111-640). -/
noncomputable def ChickenPlayer_calculate_meaning_pressure (cfg : GameConfig)
    (round_num total_rounds : ℤ) (is_final_round : Bool)
    (current_rank score_gap_from_first alive_count remaining_rounds
      current_set total_sets overall_rank overall_gap : ℤ)
    (env_bonus_multiplier : ℚ) (hp total_score : ℤ) : ℝ :=
  playerFinalAdjust cfg round_num total_rounds is_final_round current_rank
    score_gap_from_first current_set total_sets overall_gap env_bonus_multiplier hp
    total_score
    (playerPreFinalPressure cfg round_num total_rounds current_rank score_gap_from_first
      alive_count remaining_rounds current_set total_sets overall_rank overall_gap
      env_bonus_multiplier hp total_score)

/-- `pyIntQ` of an integer cast is the integer itself. -/
theorem pyIntQ_intCast (n : ℤ) : pyIntQ ((n : ℤ) : ℚ) = n := by
  simp [pyIntQ, Int.floor_intCast, Int.ceil_intCast]

/-- A test configuration used for the concrete scenarios: the default
bonus table `{1: 30}`, environment shifts disabled, neutral weights. -/
noncomputable def testConfig : GameConfig :=
  { base_weight := 1, round_progression_weight := 0, score_gap_weight := 0,
    success_bonus_10 := 20, set_rank_bonus := [(1, 30)], env_shifts_enabled := false,
    environments := [], max_hp := 5, crash_hp_loss := 1, finality_weight := 1.5,
    desperation_bonus := 0.5 }

/-- C1 counterexample: final round of the final set, agent ranked first
overall with a lead of 100 over the runner-up against a maximum rival gain
of 40 — but with full HP (5, above the safe threshold 2), the code enters
the money-making branch and multiplies the pressure by 1.5, not by a
factor of at most 0.05. -/
theorem C1_counterexample_hp_buffer :
    ChickenPlayer_calculate_meaning_pressure testConfig 5 5 true 1 0 7 1 3 3 1 (-100)
        1 5 0 =
      1.5 * playerPreFinalPressure testConfig 5 5 1 0 7 1 3 3 1 (-100) 1 5 0 ∧
    playerPreFinalPressure testConfig 5 5 1 0 7 1 3 3 1 (-100) 1 5 0 = 521 / 500 ∧
    ¬ ChickenPlayer_calculate_meaning_pressure testConfig 5 5 true 1 0 7 1 3 3 1 (-100)
        1 5 0 ≤
      0.05 * playerPreFinalPressure testConfig 5 5 1 0 7 1 3 3 1 (-100) 1 5 0 := by
  have hpre : playerPreFinalPressure testConfig 5 5 1 0 7 1 3 3 1 (-100) 1 5 0 =
      521 / 500 := by
    norm_num [playerPreFinalPressure, playerSetReversalImpossibility,
      playerOverallReversalImpossibility, playerEliminationLinePressure,
      playerTotalDeathPressure, testConfig, rankBonusGet, pyIntQ]
  have hfull : ChickenPlayer_calculate_meaning_pressure testConfig 5 5 true 1 0 7 1 3 3
      1 (-100) 1 5 0 = 1563 / 1000 := by
    norm_num [ChickenPlayer_calculate_meaning_pressure, playerFinalAdjust, finalBestGain,
      safeHpThreshold, playerPreFinalPressure, playerSetReversalImpossibility,
      playerOverallReversalImpossibility, playerEliminationLinePressure,
      playerTotalDeathPressure, testConfig, rankBonusGet, pyIntQ]
  refine ⟨?_, hpre, ?_⟩
  · rw [hfull, hpre]; norm_num
  · rw [hfull, hpre]; norm_num

/-- C1 amended: in the final round of the final set, an agent ranked first
overall whose lead over the runner-up exceeds the maximum rival gain has
its meaning pressure multiplied by exactly 0.05 of the pre-final-round
value, provided it also leads the current set and lacks the HP buffer
(`hp < safe_hp_threshold`); for every configuration and every other
input. -/
theorem C1_guaranteed_win_dampening (cfg : GameConfig)
    (round_num total_rounds current_rank score_gap_from_first alive_count
      remaining_rounds current_set total_sets overall_rank overall_gap : ℤ)
    (env_bonus_multiplier : ℚ) (hp total_score : ℤ)
    (hset : current_set = total_sets)
    (hgap : overall_gap < 0)
    (hlead : finalBestGain cfg env_bonus_multiplier < ((-overall_gap : ℤ) : ℚ))
    (hhp : hp < safeHpThreshold cfg round_num total_rounds current_set total_sets)
    (hrank : current_rank = 1) :
    ChickenPlayer_calculate_meaning_pressure cfg round_num total_rounds true current_rank
        score_gap_from_first alive_count remaining_rounds current_set total_sets
        overall_rank overall_gap env_bonus_multiplier hp total_score =
      0.05 * playerPreFinalPressure cfg round_num total_rounds current_rank
        score_gap_from_first alive_count remaining_rounds current_set total_sets
        overall_rank overall_gap env_bonus_multiplier hp total_score := by
  have hbuf : ¬ (safeHpThreshold cfg round_num total_rounds current_set total_sets ≤ hp) :=
    not_le.mpr hhp
  have hlead2 : finalBestGain cfg env_bonus_multiplier < ((|overall_gap| : ℤ) : ℚ) := by
    rw [abs_of_neg hgap]
    exact hlead
  unfold ChickenPlayer_calculate_meaning_pressure playerFinalAdjust
  split_ifs with h1 h2 h3
  all_goals try (exact absurd rfl h1)
  all_goals try (exfalso; omega)
  all_goals try ring
  all_goals rw [if_neg (fun hc => hbuf hc.2), if_pos hlead2, if_pos hrank]

/-- Witness for C1 at `hp = 1`, below the safe-HP threshold `2`. -/
theorem C1_guaranteed_win_dampening_witness :
    ChickenPlayer_calculate_meaning_pressure testConfig 5 5 true 1 0 7 1 3 3 1 (-100)
        1 1 0 =
      0.05 * playerPreFinalPressure testConfig 5 5 1 0 7 1 3 3 1 (-100) 1 1 0 :=
  C1_guaranteed_win_dampening testConfig 5 5 1 0 7 1 3 3 1 (-100) 1 1 0 rfl
    (by norm_num)
    (by norm_num [finalBestGain, rankBonusGet, testConfig, pyIntQ])
    (by norm_num [safeHpThreshold, testConfig]) rfl

/-- C10 counterexample: at the same final-set final-round input the player's
inlined aggregator yields `1.563` while `MeaningPressureCalculator.calculate`
yields `0.7294`. -/
theorem C10_counterexample_final_round :
    ChickenPlayer_calculate_meaning_pressure testConfig 5 5 true 1 0 7 1 3 3 1 (-100)
        1 5 0 ≠
      MeaningPressureCalculator_calculate testConfig 5 5 true 5 0 1 0 1 3 3 1 (-100)
        7 1 := by
  have h1 : ChickenPlayer_calculate_meaning_pressure testConfig 5 5 true 1 0 7 1 3 3 1
      (-100) 1 5 0 = 1563 / 1000 := by
    norm_num [ChickenPlayer_calculate_meaning_pressure, playerFinalAdjust, finalBestGain,
      safeHpThreshold, playerPreFinalPressure, playerSetReversalImpossibility,
      playerOverallReversalImpossibility, playerEliminationLinePressure,
      playerTotalDeathPressure, testConfig, rankBonusGet, pyIntQ]
  have h2 : MeaningPressureCalculator_calculate testConfig 5 5 true 5 0 1 0 1 3 3 1
      (-100) 7 1 = 7294 / 10000 := by
    norm_num [MeaningPressureCalculator_calculate, calculate_reversal_pressure,
      calculate_overall_reversal_pressure, calculate_elimination_line_pressure,
      calculate_multi_conflict_pressure, eliminationBand, elimAvgMaxPerSet,
      elimAvgMultiplier, elimMarginToElimination, testConfig, rankBonusGet, pyIntQ]
  rw [h1, h2]
  norm_num

/-- The player's inline set-reversal block equals the standalone module's
impossibility score. -/
theorem playerSetReversal_eq_module (current_rank score_gap_from_first
    max_points_per_round remaining_rounds max_set_bonus hp : ℤ) :
    playerSetReversalImpossibility current_rank score_gap_from_first
      (pyIntQ (((max_points_per_round * remaining_rounds : ℤ) : ℚ) *
        (if hp = 1 then 1.3 else 1))) max_set_bonus =
    (calculate_reversal_pressure current_rank score_gap_from_first max_points_per_round
      remaining_rounds max_set_bonus hp).1 := by
  simp only [playerSetReversalImpossibility, calculate_reversal_pressure]
  split_ifs <;> rfl

/-- With environment shifts disabled, the player's inline overall-reversal
block equals the standalone module's score. -/
theorem playerOverallReversal_eq_module (cfg : GameConfig)
    (overall_rank overall_gap current_set total_sets max_points_per_round total_rounds
      remaining_rounds base_max_set_bonus : ℤ) (env_bonus_multiplier : ℚ)
    (henv : cfg.env_shifts_enabled = false) :
    playerOverallReversalImpossibility cfg overall_rank overall_gap current_set total_sets
      max_points_per_round total_rounds base_max_set_bonus
      (max_points_per_round * remaining_rounds)
      (pyIntQ ((base_max_set_bonus : ℚ) * env_bonus_multiplier)) =
    (calculate_overall_reversal_pressure overall_rank overall_gap current_set total_sets
      max_points_per_round total_rounds remaining_rounds base_max_set_bonus
      env_bonus_multiplier cfg.environments cfg.env_shifts_enabled).1 := by
  simp only [playerOverallReversalImpossibility, calculate_overall_reversal_pressure,
    henv, Bool.false_eq_true, false_and, if_false]
  split_ifs <;> first | rfl | omega

/-- With environment shifts disabled, the player's inline elimination-line
block equals the standalone module. -/
theorem playerElim_eq_module (cfg : GameConfig)
    (overall_rank overall_gap current_set total_sets max_points_per_round total_rounds
      remaining_rounds base_max_set_bonus : ℤ) (env_bonus_multiplier : ℚ)
    (henv : cfg.env_shifts_enabled = false) :
    playerEliminationLinePressure cfg overall_rank overall_gap current_set total_sets
      max_points_per_round total_rounds base_max_set_bonus
      (max_points_per_round * remaining_rounds)
      (pyIntQ ((base_max_set_bonus : ℚ) * env_bonus_multiplier)) =
    calculate_elimination_line_pressure overall_rank overall_gap current_set total_sets
      max_points_per_round total_rounds remaining_rounds base_max_set_bonus
      env_bonus_multiplier cfg.environments cfg.env_shifts_enabled := by
  simp only [playerEliminationLinePressure, calculate_elimination_line_pressure,
    eliminationBand, elimAvgMaxPerSet, elimAvgMultiplier, elimMarginToElimination,
    henv, Bool.false_eq_true, false_and, if_false]
  split_ifs <;> first | rfl | omega

/-- With more than three agents alive, the standalone multi-conflict
pressure is the player's inline death pressure plus the debt term. -/
theorem multi_conflict_eq_player (cfg : GameConfig)
    (current_rank score_gap_from_first alive_count hp total_score : ℤ) (rev : ℚ)
    (halive : 3 < alive_count) :
    calculate_multi_conflict_pressure hp cfg.max_hp current_rank score_gap_from_first
      alive_count total_score rev =
    playerTotalDeathPressure cfg current_rank score_gap_from_first alive_count hp
      total_score rev +
      (if total_score < 0 then ((|total_score| : ℤ) : ℝ) / 50 * 2 else 0) := by
  have hna : ¬ (alive_count ≤ 3) := by omega
  simp only [calculate_multi_conflict_pressure, playerTotalDeathPressure, hna, if_false]
  split_ifs <;> ring

/-- C10 amended: the two meaning-pressure aggregators agree on every
non-final round with more than three agents alive, `hp ≠ 1`, and
environment shifts disabled; on the final round (and in the excluded
cases: endgame scaling, the `hp = 1` risk bonus, the environment tables)
they diverge. -/
theorem C10_restricted_equivalence (cfg : GameConfig)
    (round_num total_rounds current_rank score_gap_from_first alive_count
      remaining_rounds current_set total_sets overall_rank overall_gap : ℤ)
    (env_bonus_multiplier : ℚ) (hp total_score : ℤ)
    (halive : 3 < alive_count) (hhp : hp ≠ 1) (henv : cfg.env_shifts_enabled = false) :
    ChickenPlayer_calculate_meaning_pressure cfg round_num total_rounds false current_rank
      score_gap_from_first alive_count remaining_rounds current_set total_sets
      overall_rank overall_gap env_bonus_multiplier hp total_score =
    MeaningPressureCalculator_calculate cfg round_num total_rounds false hp total_score
      current_rank score_gap_from_first remaining_rounds current_set total_sets
      overall_rank overall_gap alive_count env_bonus_multiplier := by
  have hna : ¬ (alive_count ≤ 3) := by omega
  simp only [ChickenPlayer_calculate_meaning_pressure, playerFinalAdjust,
    MeaningPressureCalculator_calculate, playerPreFinalPressure,
    Bool.false_eq_true, if_false, hna]
  rw [playerSetReversal_eq_module]
  simp only [if_neg hhp, mul_one, pyIntQ_intCast]
  rw [playerOverallReversal_eq_module cfg overall_rank overall_gap current_set total_sets
    cfg.success_bonus_10 total_rounds remaining_rounds (rankBonusGet cfg 1 30)
    env_bonus_multiplier henv]
  rw [playerElim_eq_module cfg overall_rank overall_gap current_set total_sets
    cfg.success_bonus_10 total_rounds remaining_rounds (rankBonusGet cfg 1 30)
    env_bonus_multiplier henv]
  rw [multi_conflict_eq_player cfg current_rank score_gap_from_first alive_count hp
    total_score _ halive]
  split_ifs <;> ring

/-- Witness for C10 at a concrete non-final-round input. -/
theorem C10_restricted_equivalence_witness :
    ChickenPlayer_calculate_meaning_pressure testConfig 2 5 false 2 10 7 3 1 3 2 15
        1 5 0 =
      MeaningPressureCalculator_calculate testConfig 2 5 false 5 0 2 10 3 1 3 2 15 7 1 :=
  C10_restricted_equivalence testConfig 2 5 2 10 7 3 1 3 2 15 1 5 0 (by norm_num)
    (by norm_num) rfl

end Apex
